import Mathlib

/-!
Verification of the deal-evaluation core of the Ai-agent repository
(`functions/deal_calculator.py` together with the constants it imports from
`config.py`).

Modelling conventions:
* Python floats carrying currency amounts are modelled as exact rationals `ℚ`.
* Python `round(x, 2)` is modelled as `round2`, rounding `x` to the nearest
  multiple of 1/100 (ties away from the floor, via Mathlib `round`).
* A Python dict field that may be absent is an `Option`; `dict.get(k, d)`
  becomes `Option.getD`.
* The `year_built` entry may be absent, a non-negative integer or digit
  string (both pass `str(y).isdigit()` and convert via `int`), or anything
  else (negative int, float, non-digit string), which fails the digit test.
-/

/-- Rounding to 2 decimal places, the model of Python `round(x, 2)`. -/
def round2 (q : ℚ) : ℚ := ((round (q * 100) : ℤ) : ℚ) / 100

/-- Constant from `config.py`: `ARV_MULTIPLIER = 0.70` (70% rule). -/
def ARV_MULTIPLIER : ℚ := 0.70

/-- Constant from `config.py`: `DEFAULT_PROFIT_MARGIN_TARGET = 0.20`. -/
def DEFAULT_PROFIT_MARGIN_TARGET : ℚ := 0.20

/-- The `year_built` entry of a property dict, as the repair estimator
distinguishes it: absent (`missing`), an int ≥ 0 or digit string whose value
is `n` (`numeral n`), or any other value, which fails
`isinstance(year_built, (int, str)) and str(year_built).isdigit()`
(`other`). -/
inductive YearBuilt where
  | missing : YearBuilt
  | numeral : ℕ → YearBuilt
  | other : YearBuilt
deriving DecidableEq

/-- The fields of a property dict that `deal_calculator.py` reads. -/
structure PropertyInfo where
  address : Option String
  price : Option ℚ
  sqft : Option ℚ
  year_built : YearBuilt
deriving DecidableEq

/-- A comparable property record; the calculator only reads `list_price`. -/
structure Comp where
  list_price : Option ℚ
deriving DecidableEq

/-- The record returned by `estimate_repair_costs` (the `breakdown`
sub-dict is flattened into the three `breakdown_*` fields). -/
structure RepairEstimate where
  repair_level : String
  cost_per_sqft : ℚ
  estimated_total : ℚ
  breakdown_light : ℚ
  breakdown_medium : ℚ
  breakdown_heavy : ℚ
deriving DecidableEq

/-- The record returned by `calculate_max_allowable_offer`. -/
structure OfferCalculation where
  traditional_mao : ℚ
  profit_based_mao : ℚ
  recommended_mao : ℚ
  arv : ℚ
  repair_costs : ℚ
  target_profit : ℚ
  estimated_holding_costs : ℚ
deriving DecidableEq

/-- The record returned by `analyze_deal` (the `detailed_breakdown`
sub-dict is flattened into the `bd_*` fields). -/
structure DealAnalysis where
  property_address : String
  current_list_price : ℚ
  arv : ℚ
  estimated_repairs : ℚ
  repair_level : String
  max_allowable_offer : ℚ
  total_investment : ℚ
  potential_profit : ℚ
  roi_percentage : ℚ
  deal_rating : String
  recommendation : String
  bd_purchase_price : ℚ
  bd_repair_costs : ℚ
  bd_holding_costs : ℚ
  bd_selling_costs : ℚ
  bd_total_costs : ℚ
  bd_arv : ℚ
  bd_net_profit : ℚ
deriving DecidableEq

/-- The truthiness filter `if comp.get("list_price")` applied to one
comparable: keeps the price only when present and non-zero. -/
def truthyPrice (c : Comp) : Option ℚ :=
  match c.list_price with
  | some p => if p = 0 then none else some p
  | none => none

/-- Model of `calculate_arv_from_comps`: 0 on an empty list, else the mean of the
present, non-zero list prices, or 0 when there are none. -/
def calculate_arv_from_comps (comps : List Comp) : ℚ :=
  match comps with
  | [] => 0
  | _ =>
    let prices := comps.filterMap truthyPrice
    match prices with
    | [] => 0
    | _ => prices.sum / (prices.length : ℚ)

/-- Age computation: `current_year - int(year_built)` when the digit test passes, else 0;
a missing `year_built` defaults to 2020 (so age 5). `current_year = 2025`. -/
def yearAge : YearBuilt → ℤ
  | .missing => 2025 - 2020
  | .numeral n => 2025 - (n : ℤ)
  | .other => 0

/-- The tier selection of `estimate_repair_costs`: level and rate per sqft. -/
def repairTier (age : ℤ) : String × ℚ :=
  if age < 10 then ("light", 12.5)
  else if age < 30 then ("medium", 30)
  else ("heavy", 62.5)

/-- Model of `estimate_repair_costs`. -/
def estimate_repair_costs (p : PropertyInfo) : RepairEstimate :=
  let sqft := p.sqft.getD 0
  let age := yearAge p.year_built
  { repair_level := (repairTier age).1
    cost_per_sqft := (repairTier age).2
    estimated_total := round2 (sqft * (repairTier age).2)
    breakdown_light := round2 (sqft * 12.5)
    breakdown_medium := round2 (sqft * 30)
    breakdown_heavy := round2 (sqft * 62.5) }

/-- Model of `calculate_max_allowable_offer`. -/
def calculate_max_allowable_offer (arv repair_costs : ℚ)
    (target_profit_percent : ℚ) : OfferCalculation :=
  let traditional_mao := arv * ARV_MULTIPLIER - repair_costs
  let target_profit := arv * target_profit_percent
  let estimated_holding_costs := arv * 0.02
  let profit_based_mao := arv - repair_costs - target_profit - estimated_holding_costs
  { traditional_mao := round2 traditional_mao
    profit_based_mao := round2 profit_based_mao
    recommended_mao := round2 (min traditional_mao profit_based_mao)
    arv := round2 arv
    repair_costs := round2 repair_costs
    target_profit := round2 target_profit
    estimated_holding_costs := round2 estimated_holding_costs }

/-- Model of `analyze_deal`; `arvOpt` and `repairCostsOpt` model the optional
`arv` and `repair_costs` arguments (Python `None` is `none`). -/
def analyze_deal (p : PropertyInfo) (arvOpt repairCostsOpt : Option ℚ) :
    DealAnalysis :=
  let current_price := p.price.getD 0
  let repair_costs :=
    match repairCostsOpt with
    | none => (estimate_repair_costs p).estimated_total
    | some rc => rc
  let repair_level :=
    match repairCostsOpt with
    | none => (estimate_repair_costs p).repair_level
    | some _ => "user_provided"
  let arv :=
    match arvOpt with
    | none => current_price * 1.15
    | some a => a
  let mao_calc := calculate_max_allowable_offer arv repair_costs DEFAULT_PROFIT_MARGIN_TARGET
  let total_cost := current_price + repair_costs + mao_calc.estimated_holding_costs
  let potential_profit := arv - total_cost
  let roi := if 0 < total_cost then potential_profit / total_cost * 100 else 0
  let deal_rating :=
    if current_price ≤ mao_calc.recommended_mao then "EXCELLENT"
    else if current_price ≤ mao_calc.recommended_mao * 1.05 then "GOOD"
    else if current_price ≤ mao_calc.recommended_mao * 1.15 then "MARGINAL"
    else "POOR"
  let recommendation :=
    if current_price ≤ mao_calc.recommended_mao then
      "Strong buy - property is below MAO"
    else if current_price ≤ mao_calc.recommended_mao * 1.05 then
      "Negotiate - close to MAO, try to lower price"
    else if current_price ≤ mao_calc.recommended_mao * 1.15 then
      "Risky - only proceed if you can negotiate significantly"
    else
      "Pass - property is overpriced for investment"
  { property_address := p.address.getD "N/A"
    current_list_price := current_price
    arv := round2 arv
    estimated_repairs := round2 repair_costs
    repair_level := repair_level
    max_allowable_offer := mao_calc.recommended_mao
    total_investment := round2 total_cost
    potential_profit := round2 potential_profit
    roi_percentage := round2 roi
    deal_rating := deal_rating
    recommendation := recommendation
    bd_purchase_price := current_price
    bd_repair_costs := round2 repair_costs
    bd_holding_costs := mao_calc.estimated_holding_costs
    bd_selling_costs := round2 (arv * 0.08)
    bd_total_costs := round2 total_cost
    bd_arv := round2 arv
    bd_net_profit := round2 potential_profit }

/-- Ordering of the four deal ratings, EXCELLENT best (0) to POOR worst (3). -/
def ratingRank (r : String) : ℕ :=
  if r = "EXCELLENT" then 0
  else if r = "GOOD" then 1
  else if r = "MARGINAL" then 2
  else 3

/-- The price `analyze_deal` reads from the property dict. -/
def resolvedPrice (p : PropertyInfo) : ℚ := p.price.getD 0

/-- The repair costs `analyze_deal` works with: the explicit argument when
given, else the estimator total. -/
def resolvedRC (p : PropertyInfo) (repairCostsOpt : Option ℚ) : ℚ :=
  match repairCostsOpt with
  | none => (estimate_repair_costs p).estimated_total
  | some rc => rc

/-- The ARV `analyze_deal` works with: the explicit argument when given,
else the 115%-of-price fallback. -/
def resolvedARV (p : PropertyInfo) (arvOpt : Option ℚ) : ℚ :=
  match arvOpt with
  | none => resolvedPrice p * 1.15
  | some a => a

lemma repairTier_cases (age : ℤ) :
    (age < 10 → repairTier age = ("light", 12.5)) ∧
    (10 ≤ age → age < 30 → repairTier age = ("medium", 30)) ∧
    (30 ≤ age → repairTier age = ("heavy", 62.5)) := by
  unfold repairTier
  refine ⟨fun h1 => ?_, fun h1 h2 => ?_, fun h1 => ?_⟩ <;>
    split_ifs <;> first | rfl | omega

lemma round2_nonneg {q : ℚ} (h : 0 ≤ q) : 0 ≤ round2 q := by
  unfold round2
  have h1 : (0:ℤ) ≤ round (q * 100) := by
    rw [round_eq]
    exact Int.floor_nonneg.mpr (by linarith)
  apply div_nonneg _ (by norm_num)
  exact_mod_cast h1

lemma repairTier_rate_nonneg (age : ℤ) : 0 ≤ (repairTier age).2 := by
  unfold repairTier
  split_ifs <;> norm_num

lemma analyze_arv_eq (p : PropertyInfo) (aOpt rOpt : Option ℚ) :
    (analyze_deal p aOpt rOpt).arv = round2 (resolvedARV p aOpt) := by
  cases aOpt <;> cases rOpt <;> rfl

lemma analyze_clp_eq (p : PropertyInfo) (aOpt rOpt : Option ℚ) :
    (analyze_deal p aOpt rOpt).current_list_price = resolvedPrice p := by
  cases aOpt <;> cases rOpt <;> rfl

lemma analyze_repairs_eq (p : PropertyInfo) (aOpt rOpt : Option ℚ) :
    (analyze_deal p aOpt rOpt).estimated_repairs = round2 (resolvedRC p rOpt) := by
  cases aOpt <;> cases rOpt <;> rfl

lemma analyze_mao_eq (p : PropertyInfo) (aOpt rOpt : Option ℚ) :
    (analyze_deal p aOpt rOpt).max_allowable_offer =
      round2 (min (resolvedARV p aOpt * 0.70 - resolvedRC p rOpt)
        (resolvedARV p aOpt - resolvedRC p rOpt - resolvedARV p aOpt * 0.20 -
          resolvedARV p aOpt * 0.02)) := by
  cases aOpt <;> cases rOpt <;> rfl

lemma analyze_ti_eq (p : PropertyInfo) (aOpt rOpt : Option ℚ) :
    (analyze_deal p aOpt rOpt).total_investment =
      round2 (resolvedPrice p + resolvedRC p rOpt +
        round2 (resolvedARV p aOpt * 0.02)) := by
  cases aOpt <;> cases rOpt <;> rfl

lemma analyze_pp_eq (p : PropertyInfo) (aOpt rOpt : Option ℚ) :
    (analyze_deal p aOpt rOpt).potential_profit =
      round2 (resolvedARV p aOpt - (resolvedPrice p + resolvedRC p rOpt +
        round2 (resolvedARV p aOpt * 0.02))) := by
  cases aOpt <;> cases rOpt <;> rfl

lemma analyze_roi_eq (p : PropertyInfo) (aOpt rOpt : Option ℚ) :
    (analyze_deal p aOpt rOpt).roi_percentage =
      round2 (if 0 < resolvedPrice p + resolvedRC p rOpt +
          round2 (resolvedARV p aOpt * 0.02) then
        (resolvedARV p aOpt - (resolvedPrice p + resolvedRC p rOpt +
          round2 (resolvedARV p aOpt * 0.02))) /
        (resolvedPrice p + resolvedRC p rOpt +
          round2 (resolvedARV p aOpt * 0.02)) * 100
      else 0) := by
  cases aOpt <;> cases rOpt <;> rfl

lemma analyze_hc_eq (p : PropertyInfo) (aOpt rOpt : Option ℚ) :
    (analyze_deal p aOpt rOpt).bd_holding_costs =
      round2 (resolvedARV p aOpt * 0.02) := by
  cases aOpt <;> cases rOpt <;> rfl

lemma analyze_sc_eq (p : PropertyInfo) (aOpt rOpt : Option ℚ) :
    (analyze_deal p aOpt rOpt).bd_selling_costs =
      round2 (resolvedARV p aOpt * 0.08) := by
  cases aOpt <;> cases rOpt <;> rfl

lemma analyze_bdpp_eq (p : PropertyInfo) (aOpt rOpt : Option ℚ) :
    (analyze_deal p aOpt rOpt).bd_purchase_price = resolvedPrice p := by
  cases aOpt <;> cases rOpt <;> rfl

lemma analyze_bdrc_eq (p : PropertyInfo) (aOpt rOpt : Option ℚ) :
    (analyze_deal p aOpt rOpt).bd_repair_costs = round2 (resolvedRC p rOpt) := by
  cases aOpt <;> cases rOpt <;> rfl

lemma analyze_bdtc_eq (p : PropertyInfo) (aOpt rOpt : Option ℚ) :
    (analyze_deal p aOpt rOpt).bd_total_costs =
      round2 (resolvedPrice p + resolvedRC p rOpt +
        round2 (resolvedARV p aOpt * 0.02)) := by
  cases aOpt <;> cases rOpt <;> rfl

lemma analyze_bdarv_eq (p : PropertyInfo) (aOpt rOpt : Option ℚ) :
    (analyze_deal p aOpt rOpt).bd_arv = round2 (resolvedARV p aOpt) := by
  cases aOpt <;> cases rOpt <;> rfl

lemma analyze_rating_eq (p : PropertyInfo) (aOpt rOpt : Option ℚ) :
    (analyze_deal p aOpt rOpt).deal_rating =
      (if resolvedPrice p ≤ (calculate_max_allowable_offer (resolvedARV p aOpt)
          (resolvedRC p rOpt) DEFAULT_PROFIT_MARGIN_TARGET).recommended_mao then
        "EXCELLENT"
      else if resolvedPrice p ≤ (calculate_max_allowable_offer (resolvedARV p aOpt)
          (resolvedRC p rOpt) DEFAULT_PROFIT_MARGIN_TARGET).recommended_mao * 1.05 then
        "GOOD"
      else if resolvedPrice p ≤ (calculate_max_allowable_offer (resolvedARV p aOpt)
          (resolvedRC p rOpt) DEFAULT_PROFIT_MARGIN_TARGET).recommended_mao * 1.15 then
        "MARGINAL"
      else "POOR") := by
  cases aOpt <;> cases rOpt <;> rfl

lemma analyze_reco_eq (p : PropertyInfo) (aOpt rOpt : Option ℚ) :
    (analyze_deal p aOpt rOpt).recommendation =
      (if resolvedPrice p ≤ (calculate_max_allowable_offer (resolvedARV p aOpt)
          (resolvedRC p rOpt) DEFAULT_PROFIT_MARGIN_TARGET).recommended_mao then
        "Strong buy - property is below MAO"
      else if resolvedPrice p ≤ (calculate_max_allowable_offer (resolvedARV p aOpt)
          (resolvedRC p rOpt) DEFAULT_PROFIT_MARGIN_TARGET).recommended_mao * 1.05 then
        "Negotiate - close to MAO, try to lower price"
      else if resolvedPrice p ≤ (calculate_max_allowable_offer (resolvedARV p aOpt)
          (resolvedRC p rOpt) DEFAULT_PROFIT_MARGIN_TARGET).recommended_mao * 1.15 then
        "Risky - only proceed if you can negotiate significantly"
      else "Pass - property is overpriced for investment") := by
  cases aOpt <;> cases rOpt <;> rfl

lemma analyze_level_eq_some (p : PropertyInfo) (aOpt : Option ℚ) (rc : ℚ) :
    (analyze_deal p aOpt (some rc)).repair_level = "user_provided" := by
  cases aOpt <;> rfl

lemma analyze_level_eq_none (p : PropertyInfo) (aOpt : Option ℚ) :
    (analyze_deal p aOpt none).repair_level = (estimate_repair_costs p).repair_level := by
  cases aOpt <;> rfl

lemma filterMap_truthyPrice (comps : List Comp) :
    comps.filterMap truthyPrice =
      (comps.filterMap Comp.list_price).filter (fun q => q ≠ 0) := by
  induction comps with
  | nil => rfl
  | cons c cs ih =>
    cases hc : c.list_price with
    | none => simp [List.filterMap_cons, truthyPrice, hc, ih]
    | some q =>
      by_cases hq : q = 0 <;>
        simp [List.filterMap_cons, truthyPrice, hc, hq, ih]

/-- C1: for every `arv`, `repair_costs` and target profit fraction `t`,
`calculate_max_allowable_offer` returns `recommended_mao` equal to the
minimum of the rule-based MAO `arv × 0.70 − repair_costs` and the
profit-based MAO `arv − repair_costs − arv × t − arv × 0.02`, rounded to 2
decimal places; at the default fraction `t = 0.20` this is
`round2 (min (arv × 0.70 − repair_costs)
(arv − repair_costs − arv × 0.20 − arv × 0.02))`. -/
theorem mao_recommended_is_min (arv rc t : ℚ) :
    (calculate_max_allowable_offer arv rc t).recommended_mao =
      round2 (min (arv * 0.70 - rc) (arv - rc - arv * t - arv * 0.02)) ∧
    (calculate_max_allowable_offer arv rc DEFAULT_PROFIT_MARGIN_TARGET).recommended_mao =
      round2 (min (arv * 0.70 - rc) (arv - rc - arv * 0.20 - arv * 0.02)) :=
  ⟨rfl, rfl⟩

/-- C4: `calculate_arv_from_comps` returns the arithmetic mean of the list
prices that are present and non-zero; when the list is empty, or no
comparable carries a present non-zero list price, it returns 0. -/
theorem arv_from_comps_mean (comps : List Comp) :
    calculate_arv_from_comps comps =
      (if ((comps.filterMap Comp.list_price).filter (fun q => q ≠ 0)) = [] then 0
      else ((comps.filterMap Comp.list_price).filter (fun q => q ≠ 0)).sum /
        (((comps.filterMap Comp.list_price).filter (fun q => q ≠ 0)).length : ℚ)) := by
  rw [← filterMap_truthyPrice]
  cases comps with
  | nil => rfl
  | cons c cs =>
    unfold calculate_arv_from_comps
    cases hp : (c :: cs).filterMap truthyPrice with
    | nil => simp [hp]
    | cons q qs => simp [hp]

/-- C9: when the year built is missing or non-numeric,
`estimate_repair_costs` returns the same `repair_level`, `cost_per_sqft`
and `estimated_total` as for a property of the same square footage built
in the reference year 2025 (age 0): the light tier at 12.50 per square
foot. -/
theorem missing_year_like_reference_year (addr : Option String)
    (pr sqOpt : Option ℚ) (yb : YearBuilt)
    (h : yb = YearBuilt.missing ∨ yb = YearBuilt.other) :
    (estimate_repair_costs ⟨addr, pr, sqOpt, yb⟩).repair_level =
      (estimate_repair_costs ⟨addr, pr, sqOpt, YearBuilt.numeral 2025⟩).repair_level ∧
    (estimate_repair_costs ⟨addr, pr, sqOpt, yb⟩).cost_per_sqft =
      (estimate_repair_costs ⟨addr, pr, sqOpt, YearBuilt.numeral 2025⟩).cost_per_sqft ∧
    (estimate_repair_costs ⟨addr, pr, sqOpt, yb⟩).estimated_total =
      (estimate_repair_costs ⟨addr, pr, sqOpt, YearBuilt.numeral 2025⟩).estimated_total ∧
    (estimate_repair_costs ⟨addr, pr, sqOpt, yb⟩).repair_level = "light" ∧
    (estimate_repair_costs ⟨addr, pr, sqOpt, yb⟩).cost_per_sqft = 12.5 := by
  rcases h with h | h <;> subst h <;>
    refine ⟨?_, ?_, ?_, ?_, ?_⟩ <;>
    simp [estimate_repair_costs, yearAge, repairTier]

/-- C10: `analyze_deal` applies its defaults only when an argument is
absent, not when it is zero: an explicit `arv = 0` analyzes with ARV 0
rather than the list-price × 1.15 fallback, and an explicit
`repair_costs = 0` keeps repairs at 0 with `repair_level` reported as
`user_provided` rather than invoking the repair estimator. -/
theorem explicit_zero_args_not_defaulted (p : PropertyInfo)
    (aOpt rOpt : Option ℚ) :
    resolvedARV p (some 0) = 0 ∧
    (analyze_deal p (some 0) rOpt).arv = 0 ∧
    resolvedRC p (some 0) = 0 ∧
    (analyze_deal p aOpt (some 0)).estimated_repairs = 0 ∧
    (analyze_deal p aOpt (some 0)).repair_level = "user_provided" := by
  refine ⟨rfl, ?_, rfl, ?_, analyze_level_eq_some p aOpt 0⟩
  · rw [analyze_arv_eq]
    norm_num [resolvedARV, round2, round_eq]
  · rw [analyze_repairs_eq]
    norm_num [resolvedRC, round2, round_eq]

/-- C3: for a property with non-negative square footage `sq` and numeric
year built `n`, `estimate_repair_costs` selects the tier by
`age = 2025 − n` (age < 10 light at 12.50/sqft, 10 ≤ age < 30 medium at
30.00/sqft, age ≥ 30 heavy at 62.50/sqft), returns
`estimated_total = round2 (sq × rate)` for the selected rate, and the
breakdown always holds the totals under all three fixed rates. -/
theorem repair_tier_selection (addr : Option String) (pr : Option ℚ)
    (sq : ℚ) (n : ℕ) (hsq : 0 ≤ sq) :
    (2025 - (n : ℤ) < 10 →
      (estimate_repair_costs ⟨addr, pr, some sq, YearBuilt.numeral n⟩).repair_level = "light" ∧
      (estimate_repair_costs ⟨addr, pr, some sq, YearBuilt.numeral n⟩).cost_per_sqft = 12.5) ∧
    (10 ≤ 2025 - (n : ℤ) → 2025 - (n : ℤ) < 30 →
      (estimate_repair_costs ⟨addr, pr, some sq, YearBuilt.numeral n⟩).repair_level = "medium" ∧
      (estimate_repair_costs ⟨addr, pr, some sq, YearBuilt.numeral n⟩).cost_per_sqft = 30) ∧
    (30 ≤ 2025 - (n : ℤ) →
      (estimate_repair_costs ⟨addr, pr, some sq, YearBuilt.numeral n⟩).repair_level = "heavy" ∧
      (estimate_repair_costs ⟨addr, pr, some sq, YearBuilt.numeral n⟩).cost_per_sqft = 62.5) ∧
    (estimate_repair_costs ⟨addr, pr, some sq, YearBuilt.numeral n⟩).estimated_total =
      round2 (sq * (estimate_repair_costs ⟨addr, pr, some sq, YearBuilt.numeral n⟩).cost_per_sqft) ∧
    (estimate_repair_costs ⟨addr, pr, some sq, YearBuilt.numeral n⟩).breakdown_light =
      round2 (sq * 12.5) ∧
    (estimate_repair_costs ⟨addr, pr, some sq, YearBuilt.numeral n⟩).breakdown_medium =
      round2 (sq * 30) ∧
    (estimate_repair_costs ⟨addr, pr, some sq, YearBuilt.numeral n⟩).breakdown_heavy =
      round2 (sq * 62.5) := by
  have hc := repairTier_cases (yearAge (YearBuilt.numeral n))
  have hage : yearAge (YearBuilt.numeral n) = 2025 - (n : ℤ) := rfl
  rw [hage] at hc
  refine ⟨fun h1 => ?_, fun h1 h2 => ?_, fun h1 => ?_, rfl, rfl, rfl, rfl⟩
  · have hrt := hc.1 h1
    simp [estimate_repair_costs, yearAge, hrt]
  · have hrt := hc.2.1 h1 h2
    simp [estimate_repair_costs, yearAge, hrt]
  · have hrt := hc.2.2 h1
    simp [estimate_repair_costs, yearAge, hrt]

/-- Witness for C3: instantiation at square footage 1500 and year built
1990 (age 35, heavy tier). -/
theorem repair_tier_selection_witness :
    (0:ℚ) ≤ 1500 ∧
    ((2025 - ((1990:ℕ) : ℤ) < 10 →
      (estimate_repair_costs ⟨none, none, some 1500, YearBuilt.numeral 1990⟩).repair_level = "light" ∧
      (estimate_repair_costs ⟨none, none, some 1500, YearBuilt.numeral 1990⟩).cost_per_sqft = 12.5) ∧
    (10 ≤ 2025 - ((1990:ℕ) : ℤ) → 2025 - ((1990:ℕ) : ℤ) < 30 →
      (estimate_repair_costs ⟨none, none, some 1500, YearBuilt.numeral 1990⟩).repair_level = "medium" ∧
      (estimate_repair_costs ⟨none, none, some 1500, YearBuilt.numeral 1990⟩).cost_per_sqft = 30) ∧
    (30 ≤ 2025 - ((1990:ℕ) : ℤ) →
      (estimate_repair_costs ⟨none, none, some 1500, YearBuilt.numeral 1990⟩).repair_level = "heavy" ∧
      (estimate_repair_costs ⟨none, none, some 1500, YearBuilt.numeral 1990⟩).cost_per_sqft = 62.5) ∧
    (estimate_repair_costs ⟨none, none, some 1500, YearBuilt.numeral 1990⟩).estimated_total =
      round2 (1500 * (estimate_repair_costs ⟨none, none, some 1500, YearBuilt.numeral 1990⟩).cost_per_sqft) ∧
    (estimate_repair_costs ⟨none, none, some 1500, YearBuilt.numeral 1990⟩).breakdown_light =
      round2 (1500 * 12.5) ∧
    (estimate_repair_costs ⟨none, none, some 1500, YearBuilt.numeral 1990⟩).breakdown_medium =
      round2 (1500 * 30) ∧
    (estimate_repair_costs ⟨none, none, some 1500, YearBuilt.numeral 1990⟩).breakdown_heavy =
      round2 (1500 * 62.5)) :=
  ⟨by norm_num, repair_tier_selection none none 1500 1990 (by norm_num)⟩

/-- Witness for C9: instantiation at a property with a missing year built
and square footage 1000. -/
theorem missing_year_like_reference_year_witness :
    (YearBuilt.missing = YearBuilt.missing ∨ YearBuilt.missing = YearBuilt.other) ∧
    ((estimate_repair_costs ⟨none, none, some 1000, YearBuilt.missing⟩).repair_level =
      (estimate_repair_costs ⟨none, none, some 1000, YearBuilt.numeral 2025⟩).repair_level ∧
    (estimate_repair_costs ⟨none, none, some 1000, YearBuilt.missing⟩).cost_per_sqft =
      (estimate_repair_costs ⟨none, none, some 1000, YearBuilt.numeral 2025⟩).cost_per_sqft ∧
    (estimate_repair_costs ⟨none, none, some 1000, YearBuilt.missing⟩).estimated_total =
      (estimate_repair_costs ⟨none, none, some 1000, YearBuilt.numeral 2025⟩).estimated_total ∧
    (estimate_repair_costs ⟨none, none, some 1000, YearBuilt.missing⟩).repair_level = "light" ∧
    (estimate_repair_costs ⟨none, none, some 1000, YearBuilt.missing⟩).cost_per_sqft = 12.5) :=
  ⟨Or.inl rfl,
    missing_year_like_reference_year none none (some 1000) YearBuilt.missing (Or.inl rfl)⟩

/-- C2: holding arv and repair costs fixed (both supplied explicitly), the
deal rating of `analyze_deal` is given by the strict threshold order
price ≤ M EXCELLENT, price ≤ M×1.05 GOOD, price ≤ M×1.15 MARGINAL, else
POOR (M the recommended MAO), and its rank never moves back toward
EXCELLENT as the list price increases. -/
theorem deal_rating_thresholds_monotone (addr : Option String)
    (sq : Option ℚ) (yb : YearBuilt) (a r M p1 p2 : ℚ)
    (hM : M = (calculate_max_allowable_offer a r
      DEFAULT_PROFIT_MARGIN_TARGET).recommended_mao)
    (hp : p1 ≤ p2) :
    ratingRank (analyze_deal ⟨addr, some p1, sq, yb⟩ (some a) (some r)).deal_rating ≤
      ratingRank (analyze_deal ⟨addr, some p2, sq, yb⟩ (some a) (some r)).deal_rating ∧
    (p1 ≤ M →
      (analyze_deal ⟨addr, some p1, sq, yb⟩ (some a) (some r)).deal_rating = "EXCELLENT") ∧
    (¬ p1 ≤ M → p1 ≤ M * 1.05 →
      (analyze_deal ⟨addr, some p1, sq, yb⟩ (some a) (some r)).deal_rating = "GOOD") ∧
    (¬ p1 ≤ M → ¬ p1 ≤ M * 1.05 → p1 ≤ M * 1.15 →
      (analyze_deal ⟨addr, some p1, sq, yb⟩ (some a) (some r)).deal_rating = "MARGINAL") ∧
    (¬ p1 ≤ M → ¬ p1 ≤ M * 1.05 → ¬ p1 ≤ M * 1.15 →
      (analyze_deal ⟨addr, some p1, sq, yb⟩ (some a) (some r)).deal_rating = "POOR") := by
  rw [analyze_rating_eq, analyze_rating_eq]
  simp only [resolvedPrice, resolvedARV, resolvedRC, Option.getD, ← hM]
  refine ⟨?_, ?_, ?_, ?_, ?_⟩
  · split_ifs <;> simp [ratingRank] <;> linarith
  · intro h1
    rw [if_pos h1]
  · intro h1 h2
    rw [if_neg h1, if_pos h2]
  · intro h1 h2 h3
    rw [if_neg h1, if_neg h2, if_pos h3]
  · intro h1 h2 h3
    rw [if_neg h1, if_neg h2, if_neg h3]

/-- Witness for C2: arv 100000 and repairs 10000 give recommended MAO
60000; instantiated at prices 50000 ≤ 70000. -/
theorem deal_rating_thresholds_monotone_witness :
    ((60000:ℚ) = (calculate_max_allowable_offer 100000 10000
      DEFAULT_PROFIT_MARGIN_TARGET).recommended_mao) ∧
    ((50000:ℚ) ≤ 70000) ∧
    (ratingRank (analyze_deal ⟨none, some 50000, none, YearBuilt.missing⟩
        (some 100000) (some 10000)).deal_rating ≤
      ratingRank (analyze_deal ⟨none, some 70000, none, YearBuilt.missing⟩
        (some 100000) (some 10000)).deal_rating ∧
    ((50000:ℚ) ≤ 60000 →
      (analyze_deal ⟨none, some 50000, none, YearBuilt.missing⟩
        (some 100000) (some 10000)).deal_rating = "EXCELLENT") ∧
    (¬ (50000:ℚ) ≤ 60000 → (50000:ℚ) ≤ 60000 * 1.05 →
      (analyze_deal ⟨none, some 50000, none, YearBuilt.missing⟩
        (some 100000) (some 10000)).deal_rating = "GOOD") ∧
    (¬ (50000:ℚ) ≤ 60000 → ¬ (50000:ℚ) ≤ 60000 * 1.05 → (50000:ℚ) ≤ 60000 * 1.15 →
      (analyze_deal ⟨none, some 50000, none, YearBuilt.missing⟩
        (some 100000) (some 10000)).deal_rating = "MARGINAL") ∧
    (¬ (50000:ℚ) ≤ 60000 → ¬ (50000:ℚ) ≤ 60000 * 1.05 → ¬ (50000:ℚ) ≤ 60000 * 1.15 →
      (analyze_deal ⟨none, some 50000, none, YearBuilt.missing⟩
        (some 100000) (some 10000)).deal_rating = "POOR")) :=
  ⟨by norm_num [calculate_max_allowable_offer, DEFAULT_PROFIT_MARGIN_TARGET,
      ARV_MULTIPLIER, round2, round_eq, min_def],
   by norm_num,
   deal_rating_thresholds_monotone none none YearBuilt.missing 100000 10000
     60000 50000 70000
     (by norm_num [calculate_max_allowable_offer, DEFAULT_PROFIT_MARGIN_TARGET,
       ARV_MULTIPLIER, round2, round_eq, min_def])
     (by norm_num)⟩

/-- C5 counterexample: on price 200000, sqft 1500, year built 1990, the
recommendation emitted by `analyze_deal` is not the string
"Pass — property is overpriced for investment." (em dash, trailing
period) that the claim quotes; the code writes it with a plain hyphen and
no period. -/
theorem end_to_end_recommendation_string_differs :
    (analyze_deal ⟨none, some 200000, some 1500, YearBuilt.numeral 1990⟩
        none none).recommendation ≠
      "Pass — property is overpriced for investment." := by
  rw [analyze_reco_eq]
  norm_num [resolvedPrice, resolvedARV, resolvedRC, Option.getD,
    estimate_repair_costs, yearAge, repairTier, calculate_max_allowable_offer,
    DEFAULT_PROFIT_MARGIN_TARGET, ARV_MULTIPLIER, round2, round_eq, min_def]
  decide

/-- C5 amended: on price 200000, sqft 1500, year built 1990, with no
explicit ARV or repair costs, `analyze_deal` produces estimated repairs
93750.00 (heavy tier, rate 62.50), arv 230000.00, recommended MAO
67250.00 (rule-based 67250.00 below profit-based 85650.00), deal rating
POOR, and recommendation "Pass - property is overpriced for investment"
(hyphen, no trailing period). -/
theorem end_to_end_example :
    (analyze_deal ⟨none, some 200000, some 1500, YearBuilt.numeral 1990⟩
      none none).estimated_repairs = 93750 ∧
    (analyze_deal ⟨none, some 200000, some 1500, YearBuilt.numeral 1990⟩
      none none).repair_level = "heavy" ∧
    (estimate_repair_costs ⟨none, some 200000, some 1500,
      YearBuilt.numeral 1990⟩).cost_per_sqft = 62.5 ∧
    (analyze_deal ⟨none, some 200000, some 1500, YearBuilt.numeral 1990⟩
      none none).arv = 230000 ∧
    (calculate_max_allowable_offer 230000 93750
      DEFAULT_PROFIT_MARGIN_TARGET).traditional_mao = 67250 ∧
    (calculate_max_allowable_offer 230000 93750
      DEFAULT_PROFIT_MARGIN_TARGET).profit_based_mao = 85650 ∧
    (analyze_deal ⟨none, some 200000, some 1500, YearBuilt.numeral 1990⟩
      none none).max_allowable_offer = 67250 ∧
    (analyze_deal ⟨none, some 200000, some 1500, YearBuilt.numeral 1990⟩
      none none).deal_rating = "POOR" ∧
    (analyze_deal ⟨none, some 200000, some 1500, YearBuilt.numeral 1990⟩
      none none).recommendation =
        "Pass - property is overpriced for investment" := by
  refine ⟨?_, ?_, ?_, ?_, ?_, ?_, ?_, ?_, ?_⟩
  · rw [analyze_repairs_eq]
    norm_num [resolvedRC, estimate_repair_costs, yearAge, repairTier,
      Option.getD, round2, round_eq]
  · rw [analyze_level_eq_none]
    norm_num [estimate_repair_costs, yearAge, repairTier]
  · norm_num [estimate_repair_costs, yearAge, repairTier]
  · rw [analyze_arv_eq]
    norm_num [resolvedARV, resolvedPrice, Option.getD, round2, round_eq]
  · norm_num [calculate_max_allowable_offer, DEFAULT_PROFIT_MARGIN_TARGET,
      ARV_MULTIPLIER, round2, round_eq]
  · norm_num [calculate_max_allowable_offer, DEFAULT_PROFIT_MARGIN_TARGET,
      ARV_MULTIPLIER, round2, round_eq]
  · rw [analyze_mao_eq]
    norm_num [resolvedARV, resolvedRC, resolvedPrice, Option.getD,
      estimate_repair_costs, yearAge, repairTier, round2, round_eq, min_def]
  · rw [analyze_rating_eq]
    norm_num [resolvedPrice, resolvedARV, resolvedRC, Option.getD,
      estimate_repair_costs, yearAge, repairTier, calculate_max_allowable_offer,
      DEFAULT_PROFIT_MARGIN_TARGET, ARV_MULTIPLIER, round2, round_eq, min_def]
  · rw [analyze_reco_eq]
    norm_num [resolvedPrice, resolvedARV, resolvedRC, Option.getD,
      estimate_repair_costs, yearAge, repairTier, calculate_max_allowable_offer,
      DEFAULT_PROFIT_MARGIN_TARGET, ARV_MULTIPLIER, round2, round_eq, min_def]

/-- C6 counterexample: at list price 100.004 with explicit arv 0.2 and
repair costs 0, the holding costs 0.2 × 0.02 = 0.004 enter `total_cost`
already rounded to 0, so `total_investment` is 100.00, not the 100.01
that rounding the full-precision sum once would give. -/
theorem total_investment_not_full_precision :
    (analyze_deal ⟨none, some 100.004, none, YearBuilt.missing⟩
      (some 0.2) (some 0)).total_investment = 100 ∧
    round2 ((100.004 : ℚ) + 0 + 0.2 * 0.02) = 100.01 ∧
    (analyze_deal ⟨none, some 100.004, none, YearBuilt.missing⟩
      (some 0.2) (some 0)).total_investment ≠
        round2 ((100.004 : ℚ) + 0 + 0.2 * 0.02) := by
  have h1 : (analyze_deal ⟨none, some 100.004, none, YearBuilt.missing⟩
      (some 0.2) (some 0)).total_investment = 100 := by
    rw [analyze_ti_eq]
    norm_num [resolvedPrice, resolvedRC, resolvedARV, Option.getD,
      round2, round_eq]
  have h2 : round2 ((100.004 : ℚ) + 0 + 0.2 * 0.02) = 100.01 := by
    norm_num [round2, round_eq]
  refine ⟨h1, h2, ?_⟩
  rw [h1, h2]
  norm_num

/-- C6 amended: in `analyze_deal` the monetary outputs are rounded at the
point of output, but the holding costs enter `total_cost` already rounded
to 2 decimals (the `estimated_holding_costs` field of the offer
calculation): `total_investment = round2 (list_price + repair_costs +
round2 (arv × 0.02))` and `potential_profit = round2 (arv − (list_price +
repair_costs + round2 (arv × 0.02)))`. -/
theorem total_investment_potential_profit_formulas (p : PropertyInfo)
    (aOpt rOpt : Option ℚ) :
    (analyze_deal p aOpt rOpt).total_investment =
      round2 (resolvedPrice p + resolvedRC p rOpt +
        round2 (resolvedARV p aOpt * 0.02)) ∧
    (analyze_deal p aOpt rOpt).potential_profit =
      round2 (resolvedARV p aOpt - (resolvedPrice p + resolvedRC p rOpt +
        round2 (resolvedARV p aOpt * 0.02))) ∧
    (analyze_deal p aOpt rOpt).bd_holding_costs =
      round2 (resolvedARV p aOpt * 0.02) :=
  ⟨analyze_ti_eq p aOpt rOpt, analyze_pp_eq p aOpt rOpt, analyze_hc_eq p aOpt rOpt⟩

/-- C8 counterexample: with list price −100 and explicit arv 0 and repair
costs 0, `total_investment` is −100 (nonzero), yet the roi field is 0 and
not `potential_profit / total_investment × 100 = −100`: the guard is
`total_cost > 0`, not `total_cost ≠ 0`. -/
theorem roi_zero_on_negative_total :
    (analyze_deal ⟨none, some (-100), none, YearBuilt.missing⟩
      (some 0) (some 0)).total_investment = -100 ∧
    (analyze_deal ⟨none, some (-100), none, YearBuilt.missing⟩
      (some 0) (some 0)).roi_percentage = 0 ∧
    (analyze_deal ⟨none, some (-100), none, YearBuilt.missing⟩
      (some 0) (some 0)).potential_profit /
      (analyze_deal ⟨none, some (-100), none, YearBuilt.missing⟩
        (some 0) (some 0)).total_investment * 100 = -100 := by
  have hpp : (analyze_deal ⟨none, some (-100), none, YearBuilt.missing⟩
      (some 0) (some 0)).potential_profit = 100 := by
    rw [analyze_pp_eq]
    norm_num [resolvedPrice, resolvedRC, resolvedARV, Option.getD,
      round2, round_eq]
  have hti : (analyze_deal ⟨none, some (-100), none, YearBuilt.missing⟩
      (some 0) (some 0)).total_investment = -100 := by
    rw [analyze_ti_eq]
    norm_num [resolvedPrice, resolvedRC, resolvedARV, Option.getD,
      round2, round_eq]
  refine ⟨hti, ?_, ?_⟩
  · rw [analyze_roi_eq]
    norm_num [resolvedPrice, resolvedRC, resolvedARV, Option.getD,
      round2, round_eq]
  · rw [hpp, hti]
    norm_num

/-- C8 amended: the roi field equals `potential_profit / total_investment
× 100` (computed at full precision and rounded for output) whenever the
unrounded `total_cost` is positive, and 0 otherwise — in particular the
division is never performed with a zero divisor; a nonzero but negative
total (reachable only with negative inputs) also yields 0. -/
theorem roi_guarded_formula (p : PropertyInfo) (aOpt rOpt : Option ℚ) :
    (analyze_deal p aOpt rOpt).roi_percentage =
      (if 0 < resolvedPrice p + resolvedRC p rOpt +
          round2 (resolvedARV p aOpt * 0.02) then
        round2 ((resolvedARV p aOpt - (resolvedPrice p + resolvedRC p rOpt +
          round2 (resolvedARV p aOpt * 0.02))) /
          (resolvedPrice p + resolvedRC p rOpt +
            round2 (resolvedARV p aOpt * 0.02)) * 100)
      else 0) := by
  rw [analyze_roi_eq]
  by_cases h : 0 < resolvedPrice p + resolvedRC p rOpt +
      round2 (resolvedARV p aOpt * 0.02)
  · rw [if_pos h, if_pos h]
  · rw [if_neg h, if_neg h]
    norm_num [round2, round_eq]

/-- C7 counterexample: with non-negative inputs price 50000, sqft 2000,
year built 1990 (estimated repairs 125000, fallback arv 57500), the
`max_allowable_offer` field is −84750, a negative monetary field the
claim says cannot occur. -/
theorem mao_negative_on_nonneg_input :
    (0:ℚ) ≤ 50000 ∧ (0:ℚ) ≤ 2000 ∧
    (analyze_deal ⟨none, some 50000, some 2000, YearBuilt.numeral 1990⟩
      none none).max_allowable_offer = -84750 ∧
    (analyze_deal ⟨none, some 50000, some 2000, YearBuilt.numeral 1990⟩
      none none).max_allowable_offer < 0 := by
  have h : (analyze_deal ⟨none, some 50000, some 2000, YearBuilt.numeral 1990⟩
      none none).max_allowable_offer = -84750 := by
    rw [analyze_mao_eq]
    norm_num [resolvedPrice, resolvedRC, resolvedARV, Option.getD,
      estimate_repair_costs, yearAge, repairTier, round2, round_eq, min_def]
  refine ⟨by norm_num, by norm_num, h, ?_⟩
  rw [h]
  norm_num

/-- C7 amended: for non-negative list price and square footage (and, when
supplied, non-negative arv and repair costs), the monetary fields
`current_list_price`, `arv`, `estimated_repairs`, `total_investment`,
purchase price, repair costs, holding costs, selling costs, total costs
and breakdown arv of the returned analysis are non-negative;
`max_allowable_offer` is excluded along with `potential_profit` and roi,
since it may be negative when repair costs exceed 70% of ARV. -/
theorem monetary_fields_nonneg (p : PropertyInfo) (aOpt rOpt : Option ℚ)
    (hpr : 0 ≤ p.price.getD 0) (hsq : 0 ≤ p.sqft.getD 0)
    (ha : ∀ a ∈ aOpt, (0:ℚ) ≤ a) (hr : ∀ r ∈ rOpt, (0:ℚ) ≤ r) :
    0 ≤ (analyze_deal p aOpt rOpt).current_list_price ∧
    0 ≤ (analyze_deal p aOpt rOpt).arv ∧
    0 ≤ (analyze_deal p aOpt rOpt).estimated_repairs ∧
    0 ≤ (analyze_deal p aOpt rOpt).total_investment ∧
    0 ≤ (analyze_deal p aOpt rOpt).bd_purchase_price ∧
    0 ≤ (analyze_deal p aOpt rOpt).bd_repair_costs ∧
    0 ≤ (analyze_deal p aOpt rOpt).bd_holding_costs ∧
    0 ≤ (analyze_deal p aOpt rOpt).bd_selling_costs ∧
    0 ≤ (analyze_deal p aOpt rOpt).bd_total_costs ∧
    0 ≤ (analyze_deal p aOpt rOpt).bd_arv := by
  have hrc : 0 ≤ resolvedRC p rOpt := by
    cases rOpt with
    | none =>
      simp only [resolvedRC, estimate_repair_costs]
      exact round2_nonneg (mul_nonneg hsq (repairTier_rate_nonneg _))
    | some r => exact hr r rfl
  have harv : 0 ≤ resolvedARV p aOpt := by
    cases aOpt with
    | none =>
      simp only [resolvedARV, resolvedPrice]
      exact mul_nonneg hpr (by norm_num)
    | some a => exact ha a rfl
  have hP : (0:ℚ) ≤ resolvedPrice p := hpr
  have hhc : 0 ≤ round2 (resolvedARV p aOpt * 0.02) :=
    round2_nonneg (mul_nonneg harv (by norm_num))
  have htc : 0 ≤ resolvedPrice p + resolvedRC p rOpt +
      round2 (resolvedARV p aOpt * 0.02) :=
    add_nonneg (add_nonneg hP hrc) hhc
  rw [analyze_clp_eq, analyze_arv_eq, analyze_repairs_eq, analyze_ti_eq,
    analyze_bdpp_eq, analyze_bdrc_eq, analyze_hc_eq, analyze_sc_eq,
    analyze_bdtc_eq, analyze_bdarv_eq]
  exact ⟨hP, round2_nonneg harv, round2_nonneg hrc, round2_nonneg htc, hP,
    round2_nonneg hrc, hhc, round2_nonneg (mul_nonneg harv (by norm_num)),
    round2_nonneg htc, round2_nonneg harv⟩

/-- Witness for C7 amended: instantiation at the non-negative input price
200000, sqft 1500, year built 1990, with no explicit arv or repairs. -/
theorem monetary_fields_nonneg_witness :
    ((0:ℚ) ≤ (PropertyInfo.mk none (some 200000) (some 1500)
      (YearBuilt.numeral 1990)).price.getD 0) ∧
    ((0:ℚ) ≤ (PropertyInfo.mk none (some 200000) (some 1500)
      (YearBuilt.numeral 1990)).sqft.getD 0) ∧
    (∀ a ∈ (none : Option ℚ), (0:ℚ) ≤ a) ∧
    (∀ r ∈ (none : Option ℚ), (0:ℚ) ≤ r) ∧
    (0 ≤ (analyze_deal (PropertyInfo.mk none (some 200000) (some 1500)
      (YearBuilt.numeral 1990)) none none).current_list_price ∧
    0 ≤ (analyze_deal (PropertyInfo.mk none (some 200000) (some 1500)
      (YearBuilt.numeral 1990)) none none).arv ∧
    0 ≤ (analyze_deal (PropertyInfo.mk none (some 200000) (some 1500)
      (YearBuilt.numeral 1990)) none none).estimated_repairs ∧
    0 ≤ (analyze_deal (PropertyInfo.mk none (some 200000) (some 1500)
      (YearBuilt.numeral 1990)) none none).total_investment ∧
    0 ≤ (analyze_deal (PropertyInfo.mk none (some 200000) (some 1500)
      (YearBuilt.numeral 1990)) none none).bd_purchase_price ∧
    0 ≤ (analyze_deal (PropertyInfo.mk none (some 200000) (some 1500)
      (YearBuilt.numeral 1990)) none none).bd_repair_costs ∧
    0 ≤ (analyze_deal (PropertyInfo.mk none (some 200000) (some 1500)
      (YearBuilt.numeral 1990)) none none).bd_holding_costs ∧
    0 ≤ (analyze_deal (PropertyInfo.mk none (some 200000) (some 1500)
      (YearBuilt.numeral 1990)) none none).bd_selling_costs ∧
    0 ≤ (analyze_deal (PropertyInfo.mk none (some 200000) (some 1500)
      (YearBuilt.numeral 1990)) none none).bd_total_costs ∧
    0 ≤ (analyze_deal (PropertyInfo.mk none (some 200000) (some 1500)
      (YearBuilt.numeral 1990)) none none).bd_arv) :=
  ⟨by norm_num, by norm_num, by simp, by simp,
   monetary_fields_nonneg
     (PropertyInfo.mk none (some 200000) (some 1500) (YearBuilt.numeral 1990))
     none none (by norm_num) (by norm_num) (by simp) (by simp)⟩
